import Mathlib

/-!
Verification development for the parity-runner task model and HTTP task client
(`internal/core/models/task.go` and the runner HTTP client in the same file).

The Go code is shallowly embedded:
* pure validation code becomes Lean functions returning `Except String Unit`;
* the HTTP client becomes pure functions over a `ClientEnv` oracle supplying
  the outcomes of the external collaborators (device-identity provider, HTTP
  transport, JSON codec, clock, UUID parser); each operation additionally
  returns the list of HTTP requests it issued, in order, so that claims about
  which network calls happen (and their order) are statements about the trace;
* Go `error` values are an inductive with one constructor per `fmt.Errorf` /
  `errors.New` creation site, carrying the formatted arguments; a `message`
  function reproduces the Go format strings;
* a panic (`uuid.MustParse`) is a distinguished outcome, separate from the
  error return.
-/

namespace ParityRunner

/-! ## Task model (`package models`) -/

/-- `type TaskType string`. -/
abbrev TaskType := String

/-- `type TaskStatus string`. -/
abbrev TaskStatus := String

/-- `ResourceConfig` from task.go (memory, cpu shares, timeout). -/
structure ResourceConfig where
  memory : String
  cpuShares : Int
  timeout : String
deriving Repr, DecidableEq

/-- `TaskConfig` from task.go. -/
structure TaskConfig where
  fileURL : String
  env : List (String × String)
  resources : ResourceConfig
  dockerImageURL : String
  imageName : String
deriving Repr, DecidableEq

/-- `func (c *TaskConfig) Validate(taskType TaskType) error`: a switch on the
task type; docker requires a non-empty image name; command, llm and
federated_learning are accepted with no further checks; anything else is an
unsupported task type. -/
def TaskConfig.validate (c : TaskConfig) (taskType : TaskType) : Except String Unit :=
  if taskType = "docker" then
    if c.imageName = "" then .error "image name is required for Docker tasks"
    else .ok ()
  else if taskType = "command" then .ok ()
  else if taskType = "llm" then .ok ()
  else if taskType = "federated_learning" then .ok ()
  else .error ("unsupported task type: " ++ taskType)

/-- Modelled from the spec: the `EnvironmentConfig` struct is declared outside
the provided source; `Task.Validate` reads exactly one field of it, its
declared kind (`t.Environment.Type`), so the model carries that field. -/
structure EnvironmentConfig where
  type : String
deriving Repr, DecidableEq

/-- Model of a 128-bit `uuid.UUID` value from github.com/google/uuid. -/
structure UUID where
  val : Nat
deriving Repr, DecidableEq

/-- `uuid.Nil`, the zero UUID. -/
def UUID.nil : UUID := ⟨0⟩

/-- Model of `uuid.UUID.String()`: the canonical textual form. The exact
hex-and-dashes format of the external library is not reproduced; only a
textual rendering is needed to build request URLs. -/
def UUID.str (u : UUID) : String := toString u.val

/-- `Task` from task.go. `Config` is a `json.RawMessage`; it is modelled by
its decoding outcome: `none` stands for a raw message `json.Unmarshal` rejects,
`some c` for one that decodes to the `TaskConfig` value `c`. -/
structure Task where
  id : UUID
  title : String
  description : String
  type : TaskType
  status : TaskStatus
  config : Option TaskConfig
  environment : Option EnvironmentConfig
  reward : Int
  creatorAddress : String
  creatorDeviceID : String
  runnerID : String
  nonce : String
  createdAt : Nat
  updatedAt : Nat
  completedAt : Option Nat
deriving Repr, DecidableEq

/-- The environment clause of the docker check in `Task.Validate`:
`t.Environment == nil || t.Environment.Type != "docker"` is the negation of
this predicate. -/
def dockerEnvOk : Option EnvironmentConfig → Bool
  | none => false
  | some e => e.type == "docker"

/-- `func (t *Task) Validate() error`, in source order: empty title, empty
type, undecodable config, config validation for the task type, then the
docker-environment requirement. -/
def Task.validate (t : Task) : Except String Unit :=
  if t.title = "" then .error "title is required"
  else if t.type = "" then .error "task type is required"
  else
    match t.config with
    | none => .error "failed to unmarshal task config"
    | some config =>
      match config.validate t.type with
      | .error e => .error e
      | .ok () =>
        if t.type = "docker" ∧ ¬ dockerEnvOk t.environment then
          .error "docker environment configuration is required for docker tasks"
        else .ok ()

/-! ## HTTP task client (`package runner`) -/

/-- An HTTP request as assembled by the client: method, URL, headers in the
order they are set, and an optional body. -/
structure HTTPRequest where
  method : String
  url : String
  headers : List (String × String)
  body : Option String
deriving Repr, DecidableEq

/-- An HTTP response as observed by the client: status code and raw body. -/
structure HTTPResponse where
  statusCode : Nat
  body : String
deriving Repr, DecidableEq

/-- Go `error` values produced by the client, one constructor per
`fmt.Errorf` / `errors.New` creation site, carrying the formatted arguments.
`message` below reproduces the Go format strings. -/
inductive ClientError where
  /-- `"HTTP GET failed for %s: %w"` / `"HTTP POST failed for %s: %w"`. -/
  | transportFailed (method : String) (url : String) (msg : String)
  /-- `"unexpected status code: %d"` (GetAvailableTasks, CompleteTask,
  SaveTaskResult fallback). -/
  | unexpectedStatusCode (code : Nat)
  /-- `"failed to decode response: %w"`. -/
  | decodeFailed (msg : String)
  /-- `"no tasks available"`. -/
  | noTasksAvailable
  /-- `"failed to get device ID: %w"`. -/
  | deviceIDFailed (msg : String)
  /-- `"task unavailable: %s"` (409). -/
  | taskUnavailable (body : String)
  /-- `"bad request: %s"` (400). -/
  | badRequest (body : String)
  /-- `"task not found"` (404). -/
  | taskNotFound
  /-- `"unexpected status code: %d, body: %s"` (StartTask default branch). -/
  | startUnexpectedStatus (code : Nat) (body : String)
  /-- `"unsupported status: %s"`. -/
  | unsupportedStatus (status : String)
  /-- `"failed to marshal result: %w"`. -/
  | marshalFailed (msg : String)
  /-- `"server error: %s"`. -/
  | serverError (msg : String)
deriving Repr, DecidableEq

/-- The Go error message of each `ClientError`, following the `fmt.Errorf` /
`errors.New` format strings in the source. -/
def ClientError.message : ClientError → String
  | .transportFailed method url msg => "HTTP " ++ method ++ " failed for " ++ url ++ ": " ++ msg
  | .unexpectedStatusCode code => "unexpected status code: " ++ toString code
  | .decodeFailed msg => "failed to decode response: " ++ msg
  | .noTasksAvailable => "no tasks available"
  | .deviceIDFailed msg => "failed to get device ID: " ++ msg
  | .taskUnavailable body => "task unavailable: " ++ body
  | .badRequest body => "bad request: " ++ body
  | .taskNotFound => "task not found"
  | .startUnexpectedStatus code body =>
      "unexpected status code: " ++ toString code ++ ", body: " ++ body
  | .unsupportedStatus status => "unsupported status: " ++ status
  | .marshalFailed msg => "failed to marshal result: " ++ msg
  | .serverError msg => "server error: " ++ msg

/-- Modelled from the spec: the `TaskResult` struct is declared outside the
provided source. `SaveTaskResult` reads and writes its `TaskID`, `CreatedAt`
and `RunnerAddress` fields; the spec describes the rest as execution-specific
payload (exit code, logs, output artifacts) opaque to this core, collapsed
here into the single field `payload`. -/
structure TaskResult where
  taskID : UUID
  runnerAddress : String
  createdAt : Nat
  payload : String
deriving Repr, DecidableEq

/-- Outcome of an operation that may panic (only `SaveTaskResult` can, through
`uuid.MustParse`), on top of returning `nil` or an error. -/
inductive Outcome where
  | ok
  | err (e : ClientError)
  | panicked (msg : String)
deriving Repr, DecidableEq

/-- Lift a Go `error` return into an `Outcome`. -/
def Outcome.ofExcept : Except ClientError Unit → Outcome
  | .ok () => .ok
  | .error e => .err e

/-- Oracle for the external collaborators of the client. Every effect of a
client call is read from here, so the client functions are pure:
* `deviceID` — outcome of `deviceid.Manager.VerifyDeviceID()`;
* `http` — outcome of issuing a request (`http.Get`, `client.Do`, ...):
  either a transport error message or a response;
* `decodeTasks` — outcome of decoding a response body as `[]*models.Task`;
* `errField` — decoding a body as a JSON object with an `error` field:
  `none` when the decode fails, `some e` when it yields error string `e`;
* `marshalResult` — outcome of `json.Marshal` on a `TaskResult`;
* `uuidParse` — the external `uuid.Parse` on a string: `none` means invalid;
* `now` — the clock read by `time.Now()`. -/
structure ClientEnv where
  deviceID : Except String String
  http : HTTPRequest → Except String HTTPResponse
  decodeTasks : String → Except String (List Task)
  errField : String → Option String
  marshalResult : TaskResult → Except String String
  uuidParse : String → Option UUID
  now : Nat

/-- `strings.TrimSuffix`: drop `suffix` from the end of `s` when present,
otherwise return `s` unchanged. Implemented on the character list so that
concrete instances compute inside the kernel. -/
def trimSuffix (s suffix : String) : String :=
  if suffix.data.isSuffixOf s.data then ⟨s.data.take (s.data.length - suffix.data.length)⟩
  else s

/-- `HTTPTaskClient`: holds only the base URL. -/
structure HTTPTaskClient where
  baseURL : String
deriving Repr, DecidableEq

/-- The GET request issued by `GetAvailableTasks`. -/
def availableRequest (c : HTTPTaskClient) : HTTPRequest :=
  { method := "GET"
    url := trimSuffix c.baseURL "/api" ++ "/api/v1/runners/tasks/available"
    headers := []
    body := none }

/-- `func (c *HTTPTaskClient) GetAvailableTasks() ([]*models.Task, error)`:
GET the available-task list, require a 200, decode the body. Returns the
result and the list of HTTP requests issued. -/
def getAvailableTasks (env : ClientEnv) (c : HTTPTaskClient) :
    Except ClientError (List Task) × List HTTPRequest :=
  let req := availableRequest c
  match env.http req with
  | .error msg => (.error (.transportFailed "GET" req.url msg), [req])
  | .ok resp =>
    if resp.statusCode ≠ 200 then (.error (.unexpectedStatusCode resp.statusCode), [req])
    else
      match env.decodeTasks resp.body with
      | .error msg => (.error (.decodeFailed msg), [req])
      | .ok tasks => (.ok tasks, [req])

/-- The POST request issued by `StartTask` once the device ID is resolved. -/
def startRequest (c : HTTPTaskClient) (taskID deviceID : String) : HTTPRequest :=
  { method := "POST"
    url := trimSuffix c.baseURL "/api" ++ "/api/v1/runners/tasks/" ++ taskID ++ "/start"
    headers := [("X-Device-ID", deviceID)]
    body := none }

/-- `func (c *HTTPTaskClient) StartTask(taskID string) error`: resolve the
device identity (fatal on failure, before any request), POST the claim with
the `X-Device-ID` header, then map the status code: 200 ok, 409 unavailable,
400 bad request, 404 not found, otherwise a generic unexpected-status error
carrying the body. -/
def startTask (env : ClientEnv) (c : HTTPTaskClient) (taskID : String) :
    Except ClientError Unit × List HTTPRequest :=
  match env.deviceID with
  | .error msg => (.error (.deviceIDFailed msg), [])
  | .ok deviceID =>
    let req := startRequest c taskID deviceID
    match env.http req with
    | .error msg => (.error (.transportFailed "POST" req.url msg), [req])
    | .ok resp =>
      if resp.statusCode = 200 then (.ok (), [req])
      else if resp.statusCode = 409 then (.error (.taskUnavailable resp.body), [req])
      else if resp.statusCode = 400 then (.error (.badRequest resp.body), [req])
      else if resp.statusCode = 404 then (.error (.taskNotFound), [req])
      else (.error (.startUnexpectedStatus resp.statusCode resp.body), [req])

/-- The POST request issued by `CompleteTask` (`http.Post` with content type
`application/json` and no body). -/
def completeRequest (c : HTTPTaskClient) (taskID : String) : HTTPRequest :=
  { method := "POST"
    url := trimSuffix c.baseURL "/api" ++ "/api/v1/runners/tasks/" ++ taskID ++ "/complete"
    headers := [("Content-Type", "application/json")]
    body := none }

/-- `func (c *HTTPTaskClient) CompleteTask(taskID string) error`: POST the
completion, require a 200. -/
def completeTask (env : ClientEnv) (c : HTTPTaskClient) (taskID : String) :
    Except ClientError Unit × List HTTPRequest :=
  let req := completeRequest c taskID
  match env.http req with
  | .error msg => (.error (.transportFailed "POST" req.url msg), [req])
  | .ok resp =>
    if resp.statusCode ≠ 200 then (.error (.unexpectedStatusCode resp.statusCode), [req])
    else (.ok (), [req])

/-- The default-filling step of `SaveTaskResult` as a pure function (the three
`if` statements at its start): a nil `TaskID` is set from the parsed path id,
a zero `CreatedAt` from the clock, an empty `RunnerAddress` from the device
identity. Only reached when the parse cannot make `uuid.MustParse` panic, so
the `getD` fallback is never taken on that path. -/
def fillDefaults (env : ClientEnv) (deviceID taskID : String) (r : TaskResult) : TaskResult :=
  let r0 := if r.taskID = UUID.nil then
      { r with taskID := (env.uuidParse taskID).getD UUID.nil } else r
  let r1 := if r0.createdAt = 0 then { r0 with createdAt := env.now } else r0
  if r1.runnerAddress = "" then { r1 with runnerAddress := deviceID } else r1

/-- The POST request issued by `SaveTaskResult` for a serialized body. -/
def saveRequest (c : HTTPTaskClient) (taskID deviceID body : String) : HTTPRequest :=
  { method := "POST"
    url := trimSuffix c.baseURL "/api" ++ "/api/v1/runners/tasks/" ++ taskID ++ "/result"
    headers := [("Content-Type", "application/json"), ("X-Device-ID", deviceID)]
    body := some body }

/-- `func (c *HTTPTaskClient) SaveTaskResult(taskID string, result *models.TaskResult) error`:
resolve the device identity (fatal on failure, before anything else), fill the
absent defaults of the result in place — `TaskID` from `uuid.MustParse(taskID)`
when nil (a panic when `taskID` does not parse), `CreatedAt` from the clock
when zero, `RunnerAddress` from the device identity when empty — then marshal
the (mutated) result and POST it; on a non-200 response prefer a
server-supplied `error` field over the generic status-code error.
Returns the outcome, the final state of the caller's result value (the Go code
mutates it through the pointer), and the requests issued. -/
def saveTaskResult (env : ClientEnv) (c : HTTPTaskClient) (taskID : String)
    (result : TaskResult) : Outcome × TaskResult × List HTTPRequest :=
  match env.deviceID with
  | .error msg => (.err (.deviceIDFailed msg), result, [])
  | .ok deviceID =>
    let url := trimSuffix c.baseURL "/api" ++ "/api/v1/runners/tasks/" ++ taskID ++ "/result"
    if result.taskID = UUID.nil ∧ env.uuidParse taskID = none then
      (.panicked ("uuid: Parse(" ++ taskID ++ "): invalid UUID"), result, [])
    else
      let r2 := fillDefaults env deviceID taskID result
      match env.marshalResult r2 with
      | .error msg => (.err (.marshalFailed msg), r2, [])
      | .ok body =>
        let req := saveRequest c taskID deviceID body
        match env.http req with
        | .error msg => (.err (.transportFailed "POST" url msg), r2, [req])
        | .ok resp =>
          if resp.statusCode ≠ 200 then
            match env.errField resp.body with
            | some e =>
              if e ≠ "" then (.err (.serverError e), r2, [req])
              else (.err (.unexpectedStatusCode resp.statusCode), r2, [req])
            | none => (.err (.unexpectedStatusCode resp.statusCode), r2, [req])
          else (.ok, r2, [req])

/-- `func (c *HTTPTaskClient) FetchTask() (*models.Task, error)`: list the
available tasks, fail with "no tasks available" on an empty list, otherwise
claim the first entry via `StartTask` and return it. -/
def fetchTask (env : ClientEnv) (c : HTTPTaskClient) :
    Except ClientError Task × List HTTPRequest :=
  match getAvailableTasks env c with
  | (.error e, calls) => (.error e, calls)
  | (.ok tasks, calls) =>
    match tasks with
    | [] => (.error .noTasksAvailable, calls)
    | task :: _ =>
      match startTask env c task.id.str with
      | (.error e, calls2) => (.error e, calls ++ calls2)
      | (.ok (), calls2) => (.ok task, calls ++ calls2)

/-- `func (c *HTTPTaskClient) UpdateTaskStatus(taskID string, status models.TaskStatus, result *models.TaskResult) error`:
dispatch on the status — running goes to `StartTask`; completed and failed go
to `CompleteTask` and then, only when a result was supplied and completion
succeeded, to `SaveTaskResult`; anything else is an unsupported status.
Returns the outcome, the final state of the caller's result pointer, and the
requests issued. -/
def updateTaskStatus (env : ClientEnv) (c : HTTPTaskClient) (taskID : String)
    (status : TaskStatus) (result : Option TaskResult) :
    Outcome × Option TaskResult × List HTTPRequest :=
  if status = "running" then
    match startTask env c taskID with
    | (r, calls) => (.ofExcept r, result, calls)
  else if status = "completed" ∨ status = "failed" then
    match completeTask env c taskID with
    | (.error e, calls) => (.err e, result, calls)
    | (.ok (), calls) =>
      match result with
      | some r =>
        match saveTaskResult env c taskID r with
        | (o, rOut, calls2) => (o, some rOut, calls ++ calls2)
      | none => (.ok, none, calls)
  else (.err (.unsupportedStatus status), result, [])

/-! ## Sample values used by witnesses and counterexamples -/

/-- An empty resource configuration. -/
def emptyResources : ResourceConfig := { memory := "", cpuShares := 0, timeout := "" }

/-- A config with no image name (valid for command/llm/federated_learning,
invalid for docker). -/
def cmdConfig : TaskConfig :=
  { fileURL := "", env := [], resources := emptyResources, dockerImageURL := "", imageName := "" }

/-- A config with an image name set. -/
def dockerConfig : TaskConfig :=
  { fileURL := "", env := [], resources := emptyResources, dockerImageURL := ""
    imageName := "alpine" }

/-- A structurally valid command task used as the base of concrete instances. -/
def baseTask : Task :=
  { id := ⟨1⟩, title := "t", description := "", type := "command", status := "pending"
    config := some cmdConfig, environment := none, reward := 0, creatorAddress := ""
    creatorDeviceID := "", runnerID := "", nonce := "n", createdAt := 1, updatedAt := 1
    completedAt := none }

/-! ## Task-model claims -/

/-- C1: `TaskConfig.Validate(T)` succeeds iff `T` is one of docker, command,
llm, federated_learning and, when `T` is docker, `ImageName` is non-empty;
for `T` outside the enumeration it fails with the unsupported-task-type
validation error. -/
theorem taskConfig_validate_spec (c : TaskConfig) (T : TaskType) :
    (c.validate T = .ok () ↔
      ((T = "docker" ∨ T = "command" ∨ T = "llm" ∨ T = "federated_learning") ∧
        (T = "docker" → c.imageName ≠ ""))) ∧
    ((T ≠ "docker" ∧ T ≠ "command" ∧ T ≠ "llm" ∧ T ≠ "federated_learning") →
      c.validate T = .error ("unsupported task type: " ++ T)) := by
  unfold TaskConfig.validate
  constructor
  · split_ifs with h1 h2 h3 h4 h5 <;> simp_all
  · rintro ⟨h1, h2, h3, h4⟩
    simp [h1, h2, h3, h4]

/-- Witness for C1 at concrete inputs: an unrecognized type is rejected with
the unsupported-task-type error. -/
theorem taskConfig_validate_spec_witness :
    cmdConfig.validate "weird" = .error ("unsupported task type: " ++ "weird") :=
  (taskConfig_validate_spec cmdConfig "weird").2 (by decide)

/-- C2: `Task.Validate()` runs its checks in the fixed source order — empty
title, empty type, undecodable config, per-type config validation, then the
docker-environment requirement — and the first failure short-circuits the
rest; an empty title fails independent of every other field, and a docker
task whose environment is nil or not of kind docker fails even when the
config's image name is set (the config validator succeeded). -/
theorem task_validate_order (t : Task) :
    (t.title = "" → t.validate = .error "title is required") ∧
    (t.title ≠ "" → t.type = "" → t.validate = .error "task type is required") ∧
    (t.title ≠ "" → t.type ≠ "" → t.config = none →
      t.validate = .error "failed to unmarshal task config") ∧
    (∀ cfg e, t.title ≠ "" → t.type ≠ "" → t.config = some cfg →
      cfg.validate t.type = .error e → t.validate = .error e) ∧
    (∀ cfg, t.title ≠ "" → t.config = some cfg → cfg.validate t.type = .ok () →
      t.type = "docker" → dockerEnvOk t.environment = false →
      t.validate = .error "docker environment configuration is required for docker tasks") := by
  refine ⟨?_, ?_, ?_, ?_, ?_⟩
  · intro h; simp [Task.validate, h]
  · intro h1 h2; simp [Task.validate, h1, h2]
  · intro h1 h2 h3; simp [Task.validate, h1, h2, h3]
  · intro cfg e h1 h2 h3 h4; simp [Task.validate, h1, h2, h3, h4]
  · intro cfg h1 h2 h3 h4 h5
    simp_all [Task.validate]

/-- Witness for C2: each clause at a concrete task. -/
theorem task_validate_order_witness :
    (({ baseTask with title := "" } : Task).validate = .error "title is required") ∧
    (({ baseTask with type := "" } : Task).validate = .error "task type is required") ∧
    (({ baseTask with config := none } : Task).validate =
      .error "failed to unmarshal task config") ∧
    (({ baseTask with type := "docker" } : Task).validate =
      .error "image name is required for Docker tasks") ∧
    (({ baseTask with type := "docker", config := some dockerConfig } : Task).validate =
      .error "docker environment configuration is required for docker tasks") :=
  ⟨(task_validate_order _).1 rfl,
   (task_validate_order _).2.1 (by decide) rfl,
   (task_validate_order _).2.2.1 (by decide) (by decide) rfl,
   (task_validate_order _).2.2.2.1 cmdConfig _ (by decide) (by decide) rfl rfl,
   (task_validate_order _).2.2.2.2 dockerConfig (by decide) rfl rfl rfl rfl⟩

/-- C8 (counterexample): a task with an empty `Nonce` and everything else in
order is accepted by `Task.Validate()` — the validator never reads the nonce,
so the claim that every accepted task has a non-empty nonce is false. -/
theorem task_validate_empty_nonce_accepted :
    ({ baseTask with nonce := "" } : Task).nonce = "" ∧
    ({ baseTask with nonce := "" } : Task).validate = .ok () :=
  ⟨rfl, rfl⟩

/-- C8 (amended): `Task.Validate()` does not inspect the `Nonce` field at
all — its outcome is invariant under any change of the nonce, so nonce
presence is not enforced by validation (only by the database column
constraint). -/
theorem task_validate_ignores_nonce (t : Task) (s : String) :
    Task.validate { t with nonce := s } = t.validate := by
  cases t
  rfl

/-! ## Client trace lemmas -/

/-- `GetAvailableTasks` issues exactly its one GET request, whatever the
outcome. -/
theorem getAvailableTasks_calls (env : ClientEnv) (c : HTTPTaskClient) :
    (getAvailableTasks env c).2 = [availableRequest c] := by
  unfold getAvailableTasks
  cases h : env.http (availableRequest c) with
  | error msg => simp [h]
  | ok resp =>
    simp only [h]
    split_ifs
    · rfl
    · cases env.decodeTasks resp.body <;> rfl

/-- `CompleteTask` issues exactly its one POST request, whatever the
outcome. -/
theorem completeTask_calls (env : ClientEnv) (c : HTTPTaskClient) (taskID : String) :
    (completeTask env c taskID).2 = [completeRequest c taskID] := by
  unfold completeTask
  cases h : env.http (completeRequest c taskID) with
  | error msg => simp [h]
  | ok resp =>
    simp only [h]
    split_ifs <;> rfl

/-- A `completeTask` call is determined by its first component and its fixed
trace. -/
theorem completeTask_eta (env : ClientEnv) (c : HTTPTaskClient) (taskID : String) :
    completeTask env c taskID = ((completeTask env c taskID).1, [completeRequest c taskID]) :=
  Prod.ext_iff.mpr ⟨rfl, completeTask_calls env c taskID⟩

/-- A `getAvailableTasks` call is determined by its first component and its
fixed trace. -/
theorem getAvailableTasks_eta (env : ClientEnv) (c : HTTPTaskClient) :
    getAvailableTasks env c = ((getAvailableTasks env c).1, [availableRequest c]) :=
  Prod.ext_iff.mpr ⟨rfl, getAvailableTasks_calls env c⟩

/-- On the non-panicking device-resolved path, the final state of the caller's
result is exactly `fillDefaults`, whatever the marshal and HTTP outcomes. -/
theorem saveTaskResult_result (env : ClientEnv) (c : HTTPTaskClient) (taskID : String)
    (r : TaskResult) (dID : String) (hdev : env.deviceID = .ok dID)
    (hnp : ¬ (r.taskID = UUID.nil ∧ env.uuidParse taskID = none)) :
    (saveTaskResult env c taskID r).2.1 = fillDefaults env dID taskID r := by
  unfold saveTaskResult
  rw [hdev]
  simp only [if_neg hnp]
  cases hm : env.marshalResult (fillDefaults env dID taskID r) with
  | error msg => simp [hm]
  | ok body =>
    simp only [hm]
    cases hh : env.http (saveRequest c taskID dID body) with
    | error msg => simp [hh]
    | ok resp =>
      simp only [hh]
      split_ifs
      · cases env.errField resp.body with
        | none => rfl
        | some e => dsimp only; split_ifs <;> rfl
      · rfl

/-- On the non-panicking device-resolved path with a successful marshal,
`SaveTaskResult` issues exactly the one POST carrying the serialized filled
result, whatever the HTTP outcome. -/
theorem saveTaskResult_calls (env : ClientEnv) (c : HTTPTaskClient) (taskID : String)
    (r : TaskResult) (dID : String) (body : String) (hdev : env.deviceID = .ok dID)
    (hnp : ¬ (r.taskID = UUID.nil ∧ env.uuidParse taskID = none))
    (hm : env.marshalResult (fillDefaults env dID taskID r) = .ok body) :
    (saveTaskResult env c taskID r).2.2 = [saveRequest c taskID dID body] := by
  unfold saveTaskResult
  rw [hdev]
  simp only [if_neg hnp, hm]
  cases hh : env.http (saveRequest c taskID dID body) with
  | error msg => simp [hh]
  | ok resp =>
    simp only [hh]
    split_ifs
    · cases env.errField resp.body with
      | none => rfl
      | some e => dsimp only; split_ifs <;> rfl
    · rfl

/-! ## Client claims -/

/-- C6: `UpdateTaskStatus(id, running, result)` is the direct dispatch to
`StartTask(id)`: it issues exactly the requests `StartTask` issues and
returns `StartTask`'s outcome, leaving the result argument untouched,
whatever that argument is. -/
theorem updateTaskStatus_running_eq_startTask (env : ClientEnv) (c : HTTPTaskClient)
    (taskID : String) (result : Option TaskResult) :
    updateTaskStatus env c taskID "running" result =
      (.ofExcept (startTask env c taskID).1, result, (startTask env c taskID).2) := by
  rcases h : startTask env c taskID with ⟨r, calls⟩
  simp [updateTaskStatus, h]

/-- C3: `UpdateTaskStatus` dispatch — an unsupported status is rejected with
no network call and the result untouched; for completed/failed the client
calls `CompleteTask` first (exactly one request) and then, only when the
result is non-nil and completion succeeded, `SaveTaskResult`, so a nil result
yields exactly one request, a completion failure propagates with no save
request, and a non-nil result on the full success path yields exactly the two
requests complete-then-save in that order. -/
theorem updateTaskStatus_dispatch_spec (env : ClientEnv) (c : HTTPTaskClient)
    (taskID : String) :
    (∀ status result, status ≠ "running" → status ≠ "completed" → status ≠ "failed" →
      updateTaskStatus env c taskID status result =
        (.err (.unsupportedStatus status), result, [])) ∧
    (∀ status result e, (status = "completed" ∨ status = "failed") →
      (completeTask env c taskID).1 = .error e →
      updateTaskStatus env c taskID status result =
        (.err e, result, [completeRequest c taskID])) ∧
    (∀ status, (status = "completed" ∨ status = "failed") →
      (completeTask env c taskID).1 = .ok () →
      updateTaskStatus env c taskID status none = (.ok, none, [completeRequest c taskID])) ∧
    (∀ status r, (status = "completed" ∨ status = "failed") →
      (completeTask env c taskID).1 = .ok () →
      updateTaskStatus env c taskID status (some r) =
        ((saveTaskResult env c taskID r).1, some (saveTaskResult env c taskID r).2.1,
          completeRequest c taskID :: (saveTaskResult env c taskID r).2.2)) ∧
    (∀ status r dID body, (status = "completed" ∨ status = "failed") →
      (completeTask env c taskID).1 = .ok () →
      env.deviceID = .ok dID →
      ¬ (r.taskID = UUID.nil ∧ env.uuidParse taskID = none) →
      env.marshalResult (fillDefaults env dID taskID r) = .ok body →
      (updateTaskStatus env c taskID status (some r)).2.2 =
        [completeRequest c taskID, saveRequest c taskID dID body]) := by
  have hterm : ∀ status : TaskStatus, (status = "completed" ∨ status = "failed") →
      status ≠ "running" := by rintro status (rfl | rfl) <;> decide
  refine ⟨?_, ?_, ?_, ?_, ?_⟩
  · intro status result h1 h2 h3
    simp [updateTaskStatus, h1, h2, h3]
  · intro status result e hs hc
    have hpair : completeTask env c taskID = (.error e, [completeRequest c taskID]) := by
      rw [completeTask_eta, hc]
    rcases hs with rfl | rfl <;> simp [updateTaskStatus, hpair]
  · intro status hs hc
    have hpair : completeTask env c taskID = (.ok (), [completeRequest c taskID]) := by
      rw [completeTask_eta, hc]
    rcases hs with rfl | rfl <;> simp [updateTaskStatus, hpair]
  · intro status r hs hc
    have hpair : completeTask env c taskID = (.ok (), [completeRequest c taskID]) := by
      rw [completeTask_eta, hc]
    rcases hst : saveTaskResult env c taskID r with ⟨o, rOut, calls2⟩
    rcases hs with rfl | rfl <;> simp [updateTaskStatus, hpair, hst]
  · intro status r dID body hs hc hdev hnp hm
    have hpair : completeTask env c taskID = (.ok (), [completeRequest c taskID]) := by
      rw [completeTask_eta, hc]
    have hsave := saveTaskResult_calls env c taskID r dID body hdev hnp hm
    rcases hst : saveTaskResult env c taskID r with ⟨o, rOut, calls2⟩
    rw [hst] at hsave
    rcases hs with rfl | rfl <;> simp [updateTaskStatus, hpair, hst] <;> exact hsave

/-- C4: `FetchTask` — a failure of the listing call propagates; an empty
available list yields the "no tasks available" error after only the GET (no
claim call: every issued request is a GET); a non-empty list is claimed at
exactly its first entry via `StartTask`, whose failure propagates and whose
success returns that first task. -/
theorem fetchTask_spec (env : ClientEnv) (c : HTTPTaskClient) :
    (∀ e, (getAvailableTasks env c).1 = .error e →
      fetchTask env c = (.error e, [availableRequest c])) ∧
    ((getAvailableTasks env c).1 = .ok [] →
      fetchTask env c = (.error .noTasksAvailable, [availableRequest c]) ∧
      ∀ req ∈ (fetchTask env c).2, req.method = "GET") ∧
    (∀ t ts e, (getAvailableTasks env c).1 = .ok (t :: ts) →
      (startTask env c t.id.str).1 = .error e →
      fetchTask env c = (.error e, availableRequest c :: (startTask env c t.id.str).2)) ∧
    (∀ t ts, (getAvailableTasks env c).1 = .ok (t :: ts) →
      (startTask env c t.id.str).1 = .ok () →
      fetchTask env c = (.ok t, availableRequest c :: (startTask env c t.id.str).2)) := by
  refine ⟨?_, ?_, ?_, ?_⟩
  · intro e hg
    have hpair : getAvailableTasks env c = (.error e, [availableRequest c]) := by
      rw [getAvailableTasks_eta, hg]
    simp [fetchTask, hpair]
  · intro hg
    have hpair : getAvailableTasks env c = (.ok [], [availableRequest c]) := by
      rw [getAvailableTasks_eta, hg]
    refine ⟨by simp [fetchTask, hpair], ?_⟩
    simp [fetchTask, hpair, availableRequest]
  · intro t ts e hg hs
    have hpair : getAvailableTasks env c = (.ok (t :: ts), [availableRequest c]) := by
      rw [getAvailableTasks_eta, hg]
    rcases hst : startTask env c t.id.str with ⟨rs, calls2⟩
    rw [hst] at hs
    simp only at hs
    subst hs
    simp [fetchTask, hpair, hst]
  · intro t ts hg hs
    have hpair : getAvailableTasks env c = (.ok (t :: ts), [availableRequest c]) := by
      rw [getAvailableTasks_eta, hg]
    rcases hst : startTask env c t.id.str with ⟨rs, calls2⟩
    rw [hst] at hs
    simp only at hs
    subst hs
    simp [fetchTask, hpair, hst]

/-- C5: `StartTask` — a device-identity failure is fatal before any request;
otherwise the one claim POST is issued and the response status is mapped
200 to success, 409 to task-unavailable, 400 to bad-request, 404 to
not-found, and anything else to the generic unexpected-status error carrying
the body; the four failure shapes are pairwise distinct error values and
carry pairwise distinct Go messages. -/
theorem startTask_spec (env : ClientEnv) (c : HTTPTaskClient) (taskID : String) :
    (∀ msg, env.deviceID = .error msg →
      startTask env c taskID = (.error (.deviceIDFailed msg), [])) ∧
    (∀ dID resp, env.deviceID = .ok dID →
      env.http (startRequest c taskID dID) = .ok resp →
      ((resp.statusCode = 200 →
          startTask env c taskID = (.ok (), [startRequest c taskID dID])) ∧
       (resp.statusCode = 409 → startTask env c taskID =
          (.error (.taskUnavailable resp.body), [startRequest c taskID dID])) ∧
       (resp.statusCode = 400 → startTask env c taskID =
          (.error (.badRequest resp.body), [startRequest c taskID dID])) ∧
       (resp.statusCode = 404 → startTask env c taskID =
          (.error .taskNotFound, [startRequest c taskID dID])) ∧
       (resp.statusCode ≠ 200 → resp.statusCode ≠ 409 → resp.statusCode ≠ 400 →
        resp.statusCode ≠ 404 → startTask env c taskID =
          (.error (.startUnexpectedStatus resp.statusCode resp.body),
            [startRequest c taskID dID])))) ∧
    (∀ b b1 n,
      (ClientError.taskUnavailable b ≠ .badRequest b1 ∧
       ClientError.taskUnavailable b ≠ .taskNotFound ∧
       ClientError.taskUnavailable b ≠ .startUnexpectedStatus n b1 ∧
       ClientError.badRequest b ≠ .taskNotFound ∧
       ClientError.badRequest b ≠ .startUnexpectedStatus n b1 ∧
       ClientError.taskNotFound ≠ .startUnexpectedStatus n b1) ∧
      ((ClientError.taskUnavailable b).message ≠ (ClientError.badRequest b1).message ∧
       (ClientError.taskUnavailable b).message ≠ ClientError.taskNotFound.message ∧
       (ClientError.taskUnavailable b).message ≠
         (ClientError.startUnexpectedStatus n b1).message ∧
       (ClientError.badRequest b).message ≠ ClientError.taskNotFound.message ∧
       (ClientError.badRequest b).message ≠
         (ClientError.startUnexpectedStatus n b1).message ∧
       ClientError.taskNotFound.message ≠
         (ClientError.startUnexpectedStatus n b1).message)) := by
  refine ⟨?_, ?_, ?_⟩
  · intro msg h
    simp [startTask, h]
  · intro dID resp hdev hresp
    refine ⟨?_, ?_, ?_, ?_, ?_⟩
    · intro h1; simp [startTask, hdev, hresp, h1]
    · intro h1; simp [startTask, hdev, hresp, h1]
    · intro h1; simp [startTask, hdev, hresp, h1]
    · intro h1; simp [startTask, hdev, hresp, h1]
    · intro h1 h2 h3 h4; simp [startTask, hdev, hresp, h1, h2, h3, h4]
  · intro b b1 n
    constructor
    · refine ⟨by simp, by simp, by simp, by simp, by simp, by simp⟩
    · refine ⟨?_, ?_, ?_, ?_, ?_, ?_⟩ <;>
      · intro h
        have h2 := congrArg String.data h
        simp only [ClientError.message, String.data_append] at h2
        simp at h2

/-! ### fillDefaults field lemmas -/

/-- Normal form of `fillDefaults`: the three fields are filled independently,
each exactly when it is at its zero value, and the payload is untouched. -/
theorem fillDefaults_eq (env : ClientEnv) (dID taskID : String) (r : TaskResult) :
    fillDefaults env dID taskID r =
      { taskID := if r.taskID = UUID.nil then (env.uuidParse taskID).getD UUID.nil
          else r.taskID
        runnerAddress := if r.runnerAddress = "" then dID else r.runnerAddress
        createdAt := if r.createdAt = 0 then env.now else r.createdAt
        payload := r.payload } := by
  obtain ⟨tid, ra, ca, pl⟩ := r
  unfold fillDefaults
  by_cases h1 : tid = UUID.nil <;> by_cases h2 : ca = 0 <;> by_cases h3 : ra = "" <;>
    simp [h1, h2, h3]

/-- A nil task id is filled from the parsed path id. -/
theorem fillDefaults_taskID_nil (env : ClientEnv) (dID taskID : String) (r : TaskResult)
    (u : UUID) (hnil : r.taskID = UUID.nil) (hp : env.uuidParse taskID = some u) :
    (fillDefaults env dID taskID r).taskID = u := by
  simp [fillDefaults_eq, hnil, hp]

/-- A set task id is left as given. -/
theorem fillDefaults_taskID_keep (env : ClientEnv) (dID taskID : String) (r : TaskResult)
    (hnil : r.taskID ≠ UUID.nil) :
    (fillDefaults env dID taskID r).taskID = r.taskID := by
  simp [fillDefaults_eq, hnil]

/-- A zero creation time is filled from the clock. -/
theorem fillDefaults_createdAt_zero (env : ClientEnv) (dID taskID : String) (r : TaskResult)
    (h : r.createdAt = 0) :
    (fillDefaults env dID taskID r).createdAt = env.now := by
  simp [fillDefaults_eq, h]

/-- A set creation time is left as given. -/
theorem fillDefaults_createdAt_keep (env : ClientEnv) (dID taskID : String) (r : TaskResult)
    (h : r.createdAt ≠ 0) :
    (fillDefaults env dID taskID r).createdAt = r.createdAt := by
  simp [fillDefaults_eq, h]

/-- An empty runner address is filled from the device identity. -/
theorem fillDefaults_runnerAddress_empty (env : ClientEnv) (dID taskID : String)
    (r : TaskResult) (h : r.runnerAddress = "") :
    (fillDefaults env dID taskID r).runnerAddress = dID := by
  simp [fillDefaults_eq, h]

/-- A set runner address is left as given. -/
theorem fillDefaults_runnerAddress_keep (env : ClientEnv) (dID taskID : String)
    (r : TaskResult) (h : r.runnerAddress ≠ "") :
    (fillDefaults env dID taskID r).runnerAddress = r.runnerAddress := by
  simp [fillDefaults_eq, h]

/-- Default filling never touches the execution payload. -/
theorem fillDefaults_payload (env : ClientEnv) (dID taskID : String) (r : TaskResult) :
    (fillDefaults env dID taskID r).payload = r.payload := by
  simp [fillDefaults_eq]

/-- C7: `SaveTaskResult` fills each absent default before serializing: with
the device identity resolved and the path id parseable where needed, the
final result has its task id taken from the path id exactly when it was nil,
its creation time from the clock exactly when it was zero, its runner address
from the device identity exactly when it was empty — already-populated fields
are left as given — and the body POSTed is the serialization of that filled
result. -/
theorem saveTaskResult_defaults_spec (env : ClientEnv) (c : HTTPTaskClient)
    (taskID : String) (r : TaskResult) (dID : String)
    (hdev : env.deviceID = .ok dID)
    (hnp : ¬ (r.taskID = UUID.nil ∧ env.uuidParse taskID = none)) :
    ((∀ u, r.taskID = UUID.nil → env.uuidParse taskID = some u →
        (saveTaskResult env c taskID r).2.1.taskID = u) ∧
     (r.taskID ≠ UUID.nil → (saveTaskResult env c taskID r).2.1.taskID = r.taskID)) ∧
    ((r.createdAt = 0 → (saveTaskResult env c taskID r).2.1.createdAt = env.now) ∧
     (r.createdAt ≠ 0 → (saveTaskResult env c taskID r).2.1.createdAt = r.createdAt)) ∧
    ((r.runnerAddress = "" → (saveTaskResult env c taskID r).2.1.runnerAddress = dID) ∧
     (r.runnerAddress ≠ "" →
        (saveTaskResult env c taskID r).2.1.runnerAddress = r.runnerAddress)) ∧
    (∀ body, env.marshalResult ((saveTaskResult env c taskID r).2.1) = .ok body →
      (saveTaskResult env c taskID r).2.2 = [saveRequest c taskID dID body]) := by
  rw [saveTaskResult_result env c taskID r dID hdev hnp]
  refine ⟨⟨?_, ?_⟩, ⟨?_, ?_⟩, ⟨?_, ?_⟩, ?_⟩
  · intro u hnil hp; exact fillDefaults_taskID_nil env dID taskID r u hnil hp
  · intro h; exact fillDefaults_taskID_keep env dID taskID r h
  · intro h; exact fillDefaults_createdAt_zero env dID taskID r h
  · intro h; exact fillDefaults_createdAt_keep env dID taskID r h
  · intro h; exact fillDefaults_runnerAddress_empty env dID taskID r h
  · intro h; exact fillDefaults_runnerAddress_keep env dID taskID r h
  · intro body hm
    exact saveTaskResult_calls env c taskID r dID body hdev hnp hm

/-- C9: when the device identity resolves, the result's task id is nil and
the path id does not parse as a UUID, `SaveTaskResult` panics (the
`uuid.MustParse` call) rather than returning an error — and its error return
indeed only ever carries device-identity, marshalling, transport,
server-reported or unexpected-status failures. -/
theorem saveTaskResult_panic_spec :
    (∀ (env : ClientEnv) (c : HTTPTaskClient) (taskID : String) (r : TaskResult)
       (dID : String), env.deviceID = .ok dID → r.taskID = UUID.nil →
      env.uuidParse taskID = none →
      saveTaskResult env c taskID r =
        (.panicked ("uuid: Parse(" ++ taskID ++ "): invalid UUID"), r, [])) ∧
    (∀ (env : ClientEnv) (c : HTTPTaskClient) (taskID : String) (r : TaskResult)
       (e : ClientError), (saveTaskResult env c taskID r).1 = .err e →
      (∃ m, e = .deviceIDFailed m) ∨ (∃ m, e = .marshalFailed m) ∨
      (∃ u m, e = .transportFailed "POST" u m) ∨ (∃ m, e = .serverError m) ∨
      (∃ n, e = .unexpectedStatusCode n)) := by
  constructor
  · intro env c taskID r dID hdev hnil hp
    simp [saveTaskResult, hdev, hnil, hp]
  · intro env c taskID r e h
    unfold saveTaskResult at h
    cases hdev : env.deviceID with
    | error msg =>
      rw [hdev] at h
      simp only [Outcome.err.injEq] at h
      exact Or.inl ⟨msg, h.symm⟩
    | ok dID =>
      rw [hdev] at h
      dsimp only at h
      by_cases hnp : r.taskID = UUID.nil ∧ env.uuidParse taskID = none
      · rw [if_pos hnp] at h
        simp at h
      · rw [if_neg hnp] at h
        cases hm : env.marshalResult (fillDefaults env dID taskID r) with
        | error msg =>
          rw [hm] at h
          simp only [Outcome.err.injEq] at h
          exact Or.inr (Or.inl ⟨msg, h.symm⟩)
        | ok body =>
          rw [hm] at h
          simp only at h
          cases hh : env.http (saveRequest c taskID dID body) with
          | error msg =>
            rw [hh] at h
            simp only [Outcome.err.injEq] at h
            exact Or.inr (Or.inr (Or.inl ⟨_, msg, h.symm⟩))
          | ok resp =>
            rw [hh] at h
            simp only at h
            by_cases hsc : resp.statusCode = 200
            · rw [if_neg (by simp [hsc])] at h
              simp at h
            · rw [if_pos hsc] at h
              cases hef : env.errField resp.body with
              | none =>
                rw [hef] at h
                simp only [Outcome.err.injEq] at h
                exact Or.inr (Or.inr (Or.inr (Or.inr ⟨_, h.symm⟩)))
              | some emsg =>
                rw [hef] at h
                simp only at h
                by_cases he : emsg = ""
                · rw [if_neg (by simp [he])] at h
                  simp only [Outcome.err.injEq] at h
                  exact Or.inr (Or.inr (Or.inr (Or.inr ⟨_, h.symm⟩)))
                · rw [if_pos he] at h
                  simp only [Outcome.err.injEq] at h
                  exact Or.inr (Or.inr (Or.inr (Or.inl ⟨emsg, h.symm⟩)))

/-- C10: `SaveTaskResult` mutates the caller's result in place and only in the
three default-filled fields: with the device identity resolved, the final
state of the result keeps the payload unchanged and keeps each of task id,
creation time and runner address whenever it was not at its zero value; and
when device-identity resolution fails the call errors with the result
entirely unmodified and no request sent. -/
theorem saveTaskResult_frame_spec :
    (∀ (env : ClientEnv) (c : HTTPTaskClient) (taskID : String) (r : TaskResult)
       (dID : String), env.deviceID = .ok dID →
      ((saveTaskResult env c taskID r).2.1.payload = r.payload ∧
       (r.taskID ≠ UUID.nil → (saveTaskResult env c taskID r).2.1.taskID = r.taskID) ∧
       (r.createdAt ≠ 0 → (saveTaskResult env c taskID r).2.1.createdAt = r.createdAt) ∧
       (r.runnerAddress ≠ "" →
         (saveTaskResult env c taskID r).2.1.runnerAddress = r.runnerAddress))) ∧
    (∀ (env : ClientEnv) (c : HTTPTaskClient) (taskID : String) (r : TaskResult)
       (msg : String), env.deviceID = .error msg →
      saveTaskResult env c taskID r = (.err (.deviceIDFailed msg), r, [])) := by
  constructor
  · intro env c taskID r dID hdev
    by_cases hnp : r.taskID = UUID.nil ∧ env.uuidParse taskID = none
    · have hpanic : saveTaskResult env c taskID r =
          (.panicked ("uuid: Parse(" ++ taskID ++ "): invalid UUID"), r, []) := by
        simp [saveTaskResult, hdev, hnp.1, hnp.2]
      rw [hpanic]
      exact ⟨rfl, fun _ => rfl, fun _ => rfl, fun _ => rfl⟩
    · rw [saveTaskResult_result env c taskID r dID hdev hnp]
      exact ⟨fillDefaults_payload env dID taskID r,
        fillDefaults_taskID_keep env dID taskID r,
        fillDefaults_createdAt_keep env dID taskID r,
        fillDefaults_runnerAddress_keep env dID taskID r⟩
  · intro env c taskID r msg hdev
    simp [saveTaskResult, hdev]

/-! ## Sample client environments for witnesses -/

/-- Sample client with an /api-suffixed base URL. -/
def sampleClient : HTTPTaskClient := ⟨"http://server/api"⟩

/-- An environment where every collaborator succeeds: device identity "dev",
every request answered 200, the task-list decode yields no tasks, marshalling
yields the payload, every id except "bad" parses to UUID 7, clock at 42. -/
def sampleEnv : ClientEnv :=
  { deviceID := .ok "dev"
    http := fun req => if req.method = "GET" then .ok ⟨200, "[]"⟩ else .ok ⟨200, ""⟩
    decodeTasks := fun _ => .ok []
    errField := fun _ => none
    marshalResult := fun r => .ok r.payload
    uuidParse := fun s => if s = "bad" then none else some ⟨7⟩
    now := 42 }

/-- `sampleEnv` with the transport down. -/
def downEnv : ClientEnv := { sampleEnv with http := fun _ => .error "down" }

/-- `sampleEnv` with one available task. -/
def oneTaskEnv : ClientEnv := { sampleEnv with decodeTasks := fun _ => .ok [baseTask] }

/-- `sampleEnv` with one available task but POSTs failing. -/
def postDownEnv : ClientEnv :=
  { sampleEnv with
    decodeTasks := fun _ => .ok [baseTask]
    http := fun req => if req.method = "GET" then .ok ⟨200, "[]"⟩ else .error "down" }

/-- `sampleEnv` with the device-identity provider failing. -/
def noDevEnv : ClientEnv := { sampleEnv with deviceID := .error "nodev" }

/-- `sampleEnv` answering every request with the given status and body. -/
def codeEnv (code : Nat) (body : String) : ClientEnv :=
  { sampleEnv with http := fun _ => .ok ⟨code, body⟩ }

/-- A result with every defaultable field at its zero value. -/
def sampleResult : TaskResult :=
  { taskID := UUID.nil, runnerAddress := "", createdAt := 0, payload := "p" }

/-- A result with every defaultable field populated. -/
def filledResult : TaskResult :=
  { taskID := ⟨9⟩, runnerAddress := "runner", createdAt := 5, payload := "q" }

/-! ## Witnesses for the client claims -/

/-- Witness for C3 at concrete inputs: unsupported status does nothing, a nil
result yields the single complete request, a non-nil result yields the
complete request followed by the save request. -/
theorem updateTaskStatus_dispatch_spec_witness :
    (updateTaskStatus sampleEnv sampleClient "id" "pending" none =
      (.err (.unsupportedStatus "pending"), none, [])) ∧
    (updateTaskStatus sampleEnv sampleClient "id" "completed" none =
      (.ok, none, [completeRequest sampleClient "id"])) ∧
    ((updateTaskStatus sampleEnv sampleClient "id" "completed" (some sampleResult)).2.2 =
      [completeRequest sampleClient "id", saveRequest sampleClient "id" "dev" "p"]) :=
  ⟨(updateTaskStatus_dispatch_spec sampleEnv sampleClient "id").1 "pending" none
      (by decide) (by decide) (by decide),
   (updateTaskStatus_dispatch_spec sampleEnv sampleClient "id").2.2.1 "completed"
      (Or.inl rfl) rfl,
   (updateTaskStatus_dispatch_spec sampleEnv sampleClient "id").2.2.2.2 "completed"
      sampleResult "dev" "p" (Or.inl rfl) rfl rfl (by decide) rfl⟩

/-- Witness for C4 at concrete inputs: a listing failure propagates, an empty
list yields the no-tasks error after only the GET, one available task is
claimed via its start request and returned. -/
theorem fetchTask_spec_witness :
    (fetchTask downEnv sampleClient =
      (.error (.transportFailed "GET" "http://server/api/v1/runners/tasks/available" "down"),
        [availableRequest sampleClient])) ∧
    (fetchTask sampleEnv sampleClient =
      (.error .noTasksAvailable, [availableRequest sampleClient])) ∧
    (fetchTask postDownEnv sampleClient =
      (.error (.transportFailed "POST" "http://server/api/v1/runners/tasks/1/start" "down"),
        [availableRequest sampleClient, startRequest sampleClient "1" "dev"])) ∧
    (fetchTask oneTaskEnv sampleClient =
      (.ok baseTask,
        [availableRequest sampleClient, startRequest sampleClient "1" "dev"])) := by
  refine ⟨?_, ?_, ?_, ?_⟩
  · rw [(fetchTask_spec downEnv sampleClient).1 _ rfl]; rfl
  · exact ((fetchTask_spec sampleEnv sampleClient).2.1 rfl).1
  · rw [(fetchTask_spec postDownEnv sampleClient).2.2.1 baseTask [] _ rfl rfl]; rfl
  · rw [(fetchTask_spec oneTaskEnv sampleClient).2.2.2 baseTask [] rfl rfl]; rfl

/-- Witness for C5 at concrete inputs: one run per branch of the status-code
mapping, plus two of the distinguishability disequalities. -/
theorem startTask_spec_witness :
    (startTask noDevEnv sampleClient "id" = (.error (.deviceIDFailed "nodev"), [])) ∧
    (startTask sampleEnv sampleClient "id" =
      (.ok (), [startRequest sampleClient "id" "dev"])) ∧
    (startTask (codeEnv 409 "busy") sampleClient "id" =
      (.error (.taskUnavailable "busy"), [startRequest sampleClient "id" "dev"])) ∧
    (startTask (codeEnv 400 "oops") sampleClient "id" =
      (.error (.badRequest "oops"), [startRequest sampleClient "id" "dev"])) ∧
    (startTask (codeEnv 404 "") sampleClient "id" =
      (.error .taskNotFound, [startRequest sampleClient "id" "dev"])) ∧
    (startTask (codeEnv 500 "boom") sampleClient "id" =
      (.error (.startUnexpectedStatus 500 "boom"), [startRequest sampleClient "id" "dev"])) ∧
    ClientError.taskUnavailable "busy" ≠ .badRequest "busy" ∧
    (ClientError.taskUnavailable "busy").message ≠ (ClientError.badRequest "busy").message :=
  ⟨(startTask_spec noDevEnv sampleClient "id").1 "nodev" rfl,
   ((startTask_spec sampleEnv sampleClient "id").2.1 "dev" ⟨200, ""⟩ rfl rfl).1 rfl,
   ((startTask_spec (codeEnv 409 "busy") sampleClient "id").2.1 "dev" ⟨409, "busy"⟩
      rfl rfl).2.1 rfl,
   ((startTask_spec (codeEnv 400 "oops") sampleClient "id").2.1 "dev" ⟨400, "oops"⟩
      rfl rfl).2.2.1 rfl,
   ((startTask_spec (codeEnv 404 "") sampleClient "id").2.1 "dev" ⟨404, ""⟩
      rfl rfl).2.2.2.1 rfl,
   ((startTask_spec (codeEnv 500 "boom") sampleClient "id").2.1 "dev" ⟨500, "boom"⟩
      rfl rfl).2.2.2.2 (by decide) (by decide) (by decide) (by decide),
   ((startTask_spec sampleEnv sampleClient "id").2.2 "busy" "busy" 0).1.1,
   ((startTask_spec sampleEnv sampleClient "id").2.2 "busy" "busy" 0).2.1⟩

/-- Witness for C7 at concrete inputs: all three defaults are filled on a
zeroed result, all three are kept on a populated result, and the POSTed body
is the serialization of the filled result. -/
theorem saveTaskResult_defaults_spec_witness :
    ((saveTaskResult sampleEnv sampleClient "id" sampleResult).2.1.taskID = (⟨7⟩ : UUID)) ∧
    ((saveTaskResult sampleEnv sampleClient "id" sampleResult).2.1.createdAt = 42) ∧
    ((saveTaskResult sampleEnv sampleClient "id" sampleResult).2.1.runnerAddress = "dev") ∧
    ((saveTaskResult sampleEnv sampleClient "id" filledResult).2.1.taskID = (⟨9⟩ : UUID)) ∧
    ((saveTaskResult sampleEnv sampleClient "id" filledResult).2.1.createdAt = 5) ∧
    ((saveTaskResult sampleEnv sampleClient "id" filledResult).2.1.runnerAddress = "runner") ∧
    ((saveTaskResult sampleEnv sampleClient "id" sampleResult).2.2 =
      [saveRequest sampleClient "id" "dev" "p"]) :=
  ⟨(saveTaskResult_defaults_spec sampleEnv sampleClient "id" sampleResult "dev" rfl
      (by decide)).1.1 ⟨7⟩ rfl rfl,
   (saveTaskResult_defaults_spec sampleEnv sampleClient "id" sampleResult "dev" rfl
      (by decide)).2.1.1 rfl,
   (saveTaskResult_defaults_spec sampleEnv sampleClient "id" sampleResult "dev" rfl
      (by decide)).2.2.1.1 rfl,
   (saveTaskResult_defaults_spec sampleEnv sampleClient "id" filledResult "dev" rfl
      (by decide)).1.2 (by decide),
   (saveTaskResult_defaults_spec sampleEnv sampleClient "id" filledResult "dev" rfl
      (by decide)).2.1.2 (by decide),
   (saveTaskResult_defaults_spec sampleEnv sampleClient "id" filledResult "dev" rfl
      (by decide)).2.2.1.2 (by decide),
   (saveTaskResult_defaults_spec sampleEnv sampleClient "id" sampleResult "dev" rfl
      (by decide)).2.2.2 "p" rfl⟩

/-- Witness for C9 at concrete inputs: an unparseable path id together with a
nil result id panics, and an error return (here from the identity provider)
is of one of the five error-return shapes. -/
theorem saveTaskResult_panic_spec_witness :
    (saveTaskResult sampleEnv sampleClient "bad" sampleResult =
      (.panicked ("uuid: Parse(" ++ "bad" ++ "): invalid UUID"), sampleResult, [])) ∧
    ((∃ m, ClientError.deviceIDFailed "nodev" = .deviceIDFailed m) ∨
     (∃ m, ClientError.deviceIDFailed "nodev" = .marshalFailed m) ∨
     (∃ u m, ClientError.deviceIDFailed "nodev" = .transportFailed "POST" u m) ∨
     (∃ m, ClientError.deviceIDFailed "nodev" = .serverError m) ∨
     (∃ n, ClientError.deviceIDFailed "nodev" = .unexpectedStatusCode n)) :=
  ⟨saveTaskResult_panic_spec.1 sampleEnv sampleClient "bad" sampleResult "dev" rfl rfl rfl,
   saveTaskResult_panic_spec.2 noDevEnv sampleClient "id" sampleResult
     (.deviceIDFailed "nodev") rfl⟩

/-- Witness for C10 at concrete inputs: a fully populated result comes back
unchanged in all four fields, and a device-identity failure returns the
result untouched with no request. -/
theorem saveTaskResult_frame_spec_witness :
    ((saveTaskResult sampleEnv sampleClient "id" filledResult).2.1.payload = "q") ∧
    ((saveTaskResult sampleEnv sampleClient "id" filledResult).2.1.taskID = (⟨9⟩ : UUID)) ∧
    ((saveTaskResult sampleEnv sampleClient "id" filledResult).2.1.createdAt = 5) ∧
    ((saveTaskResult sampleEnv sampleClient "id" filledResult).2.1.runnerAddress = "runner") ∧
    (saveTaskResult noDevEnv sampleClient "id" sampleResult =
      (.err (.deviceIDFailed "nodev"), sampleResult, [])) :=
  ⟨(saveTaskResult_frame_spec.1 sampleEnv sampleClient "id" filledResult "dev" rfl).1,
   (saveTaskResult_frame_spec.1 sampleEnv sampleClient "id" filledResult "dev" rfl).2.1
     (by decide),
   (saveTaskResult_frame_spec.1 sampleEnv sampleClient "id" filledResult "dev" rfl).2.2.1
     (by decide),
   (saveTaskResult_frame_spec.1 sampleEnv sampleClient "id" filledResult "dev" rfl).2.2.2
     (by decide),
   saveTaskResult_frame_spec.2 noDevEnv sampleClient "id" sampleResult "nodev" rfl⟩

end ParityRunner
